import Mathlib

/-!
Verification of the Konkan Coast ocean-biogeochemistry analysis scripts.

The definitions below are a shallow embedding of the repository's Python
scripts (`processing.py`, `output.py`, `dec27_code.py`, `bio_3d.py`).
Floating-point values are modelled as rationals, NaN/missing cells as
`Option`, and in-file dates as day-of-year numbers of the supported
year 2025.  Behaviour of the external libraries the scripts rely on
(regular-expression search, `pandas` date parsing, xarray label-slice
selection, Python's `exit()` builtin) is modelled faithfully where the
scripts' contracts depend on it.
-/

namespace Konkan

/-! ## Filename date recovery (processing.py lines 50-76, output.py lines 43-57) -/

/-- Digit value of a character, used to read the captured digit groups. -/
def digitVal (c : Char) : Nat := c.toNat - 48

/-- Attempt to match the regex `(2025)(\d 2)(\d 2)` at the head of the
character list: the literal `2025` followed by four digits, read as a
two-digit month and a two-digit day. -/
def mmddAt : List Char → Option (Nat × Nat)
  | '2' :: '0' :: '2' :: '5' :: a :: b :: c :: d :: _ =>
    if a.isDigit && b.isDigit && c.isDigit && d.isDigit then
      some (10 * digitVal a + digitVal b, 10 * digitVal c + digitVal d)
    else none
  | _ => none

/-- Attempt to match the regex `(2025)(\d 3)` at the head of the character
list: the literal `2025` followed by three digits, read as a day-of-year. -/
def julianAt : List Char → Option Nat
  | '2' :: '0' :: '2' :: '5' :: a :: b :: c :: _ =>
    if a.isDigit && b.isDigit && c.isDigit then
      some (100 * digitVal a + 10 * digitVal b + digitVal c)
    else none
  | _ => none

/-- Leftmost match of the `YYYYMMDD` digit pattern, as `re.search` finds it:
scan start positions left to right. Models `re.search(r'(2025)(\d 2)(\d 2)', filename)`. -/
def searchMMDD : List Char → Option (Nat × Nat)
  | [] => none
  | c :: rest =>
    match mmddAt (c :: rest) with
    | some r => some r
    | none => searchMMDD rest

/-- Leftmost match of the `YYYYDDD` digit pattern.
Models `re.search(r'(2025)(\d 3)', filename)`. -/
def searchJulian : List Char → Option Nat
  | [] => none
  | c :: rest =>
    match julianAt (c :: rest) with
    | some r => some r
    | none => searchJulian rest

/-- Days in each month of 2025 (not a leap year); models the calendar
validation done by `pd.to_datetime(..., format='%Y%m%d')`. -/
def daysInMonth2025 : Nat → Nat
  | 1 => 31 | 2 => 28 | 3 => 31 | 4 => 30 | 5 => 31 | 6 => 30
  | 7 => 31 | 8 => 31 | 9 => 30 | 10 => 31 | 11 => 30 | 12 => 31
  | _ => 0

/-- Cumulative day count before each month of 2025. -/
def monthOffset2025 : Nat → Nat
  | 1 => 0 | 2 => 31 | 3 => 59 | 4 => 90 | 5 => 120 | 6 => 151
  | 7 => 181 | 8 => 212 | 9 => 243 | 10 => 273 | 11 => 304 | 12 => 334
  | _ => 0

/-- Whether month/day digits form a real 2025 calendar date; exactly the
dates `pd.to_datetime(date_str, format='%Y%m%d')` accepts without raising. -/
def validMD (m d : Nat) : Bool :=
  decide (1 ≤ m ∧ m ≤ 12 ∧ 1 ≤ d ∧ d ≤ daysInMonth2025 m)

/-- The day-of-year of 2025 encoded by a valid month/day pair; timestamps
are represented by their day-of-year number. -/
def ordinalDay2025 (m d : Nat) : Nat := monthOffset2025 m + d

/-- Outcome of the per-file loop body for one filename:
a recovered timestamp, a skip via the exception handler (`to_datetime`
raised on an invalid date), or a skip with the could-not-parse warning. -/
inductive FileOutcome where
  | parsed (dayOfYear : Nat)
  | errorSkip
  | warnedSkip
deriving DecidableEq, Repr

/-- Models processing.py lines 53-72 (identical logic at output.py 44-53):
search for `YYYYMMDD` first; if that digit pattern is present, parse it with
`to_datetime` - an invalid calendar date raises, the enclosing try/except
catches it and the file is skipped (no fallback to the Julian pattern).
Only when the `YYYYMMDD` digit pattern is absent is `YYYYDDD` tried, with
the same raise-and-skip behaviour for an invalid day-of-year.  When neither
pattern matches, the file is skipped with the explicit warning message. -/
def fileOutcome (name : List Char) : FileOutcome :=
  match searchMMDD name with
  | some (m, d) =>
    if validMD m d then .parsed (ordinalDay2025 m d) else .errorSkip
  | none =>
    match searchJulian name with
    | some ddd =>
      if 1 ≤ ddd ∧ ddd ≤ 365 then .parsed ddd else .errorSkip
    | none => .warnedSkip

/-- Timestamps recovered over a list of filenames, in input order; files
with no recovered timestamp contribute nothing and the loop continues. -/
def parsedTimes (names : List (List Char)) : List Nat :=
  names.filterMap fun n =>
    match fileOutcome n with
    | .parsed t => some t
    | _ => none

/-! ## Pipeline front end and assembly (processing.py lines 30-84) -/

/-- Models Python's builtin `exit()` called with no argument: it raises
`SystemExit(None)`, which terminates the interpreter with process exit
status 0. -/
def pythonExitStatus : Nat := 0

/-- A run either terminates early via `exit()` after printing messages, or
reaches assembly, producing the sorted time index of the dataset. -/
inductive RunPhase where
  | earlyExit (exitStatus : Nat) (messages : List String)
  | assembled (timeIndex : List Nat)
deriving DecidableEq, Repr

/-- Models `ds = xr.concat(datasets, dim='time'); ds = ds.sortby('time')`:
the concatenated time coordinate is the per-file timestamps in input order,
and `sortby` sorts it ascending (stable). -/
def sortTimes (times : List Nat) : List Nat :=
  List.insertionSort (· ≤ ·) times

/-- Time index of the assembled dataset built from the given filenames. -/
def assembledTimeIndex (names : List (List Char)) : List Nat :=
  sortTimes (parsedTimes names)

/-- Models processing.py lines 30-84.  A candidate is a glob match paired
with its `os.path.isfile` answer.  After filtering to regular files, an
empty file list prints the two error lines and calls `exit()`; an empty
dataset list after the parse loop prints its error line and calls `exit()`;
otherwise the run proceeds to concatenation and time sorting. -/
def runPipeline (candidates : List (List Char × Bool)) : RunPhase :=
  let fileList := (candidates.filter (·.2)).map (·.1)
  if fileList.isEmpty then
    .earlyExit pythonExitStatus
      ["Error: No .nc files found matching the pattern",
       "Tip: Check your path and ensure files end in .nc"]
  else
    let times := parsedTimes fileList
    if times.isEmpty then
      .earlyExit pythonExitStatus ["Error: No valid datasets could be loaded."]
    else
      .assembled (sortTimes times)

/-! ## Zonal slice selection (processing.py 16-20 and 104-110, dec27_code.py 8-10 and 57) -/

/-- Non-strict monotonically increasing coordinate axis. -/
def monoIncr : List ℚ → Bool
  | [] => true
  | [_] => true
  | a :: b :: rest => decide (a ≤ b) && monoIncr (b :: rest)

/-- Non-strict monotonically decreasing coordinate axis. -/
def monoDecr : List ℚ → Bool
  | [] => true
  | [_] => true
  | a :: b :: rest => decide (b ≤ a) && monoDecr (b :: rest)

/-- Models xarray/pandas label-based slice selection
`da.sel(lat=slice(start, stop))` on a monotonic coordinate: on an
increasing index it keeps the labels with `start ≤ c ≤ stop`, on a
decreasing index the labels with `stop ≤ c ≤ start` (endpoints inclusive);
a non-monotonic index raises, modelled as `none`.  The scripts pass their
zone bounds straight through to this selection. -/
def selSlice (coords : List ℚ) (start stop : ℚ) : Option (List ℚ) :=
  if monoIncr coords then
    some (coords.filter fun c => decide (start ≤ c ∧ c ≤ stop))
  else if monoDecr coords then
    some (coords.filter fun c => decide (stop ≤ c ∧ c ≤ start))
  else none

/-! ## Diagnostic classification (output.py 142-149, dec27_code.py 251-320) -/

/-- Baseline healthy post-monsoon chlorophyll concentration, output.py line 22. -/
def BASELINE_CHL : ℚ := 2

/-- Trophic sensitivity factor 0.8, output.py line 26. -/
def TROPHIC_SENSITIVITY : ℚ := 4 / 5

/-- Models output.py lines 142-144: `status` starts as STABLE and the two
successive `if` statements overwrite it, so the more severe band written
last wins. -/
def ppiStatus (ppi : ℚ) : String :=
  let s0 := "STABLE"
  let s1 := if ppi < -20 then "STRESSED" else s0
  if ppi < -50 then "CRITICAL" else s1

/-- Models dec27_code.py lines 259-265: bloom-anomaly classification. -/
def bloomStatusOf (anomaly : ℚ) : String :=
  if anomaly > 20 then "STRONG BLOOM"
  else if anomaly > 0 then "NORMAL BLOOM"
  else "BLOOM FAILURE"

/-- Models output.py lines 98-99: a positive yield forecast is dampened by
the fixed factor 0.2. -/
def dampenForecast (y : ℚ) : ℚ :=
  if y > 0 then y * (1 / 5) else y

/-- Models output.py line 95 plus the damping: yield gap forecast from the
PPI anomaly fraction. -/
def yieldGapPercent (ppiAnomaly : ℚ) : ℚ :=
  dampenForecast (ppiAnomaly * TROPHIC_SENSITIVITY * 100)

/-- Models output.py lines 146-147: the rendered forecast direction. -/
def forecastLabel (forecast : ℚ) : String :=
  if forecast > 0 then "Growth" else "Decline"

/-- Running minimum of a series; models `deep_o2.min()` over the reduced
oxygen time series. -/
def seriesMin : List ℚ → Option ℚ
  | [] => none
  | x :: xs =>
    match seriesMin xs with
    | none => some x
    | some m => some (min x m)

/-- Running maximum of a series; models `data.max()`. -/
def seriesMax : List ℚ → Option ℚ
  | [] => none
  | x :: xs =>
    match seriesMax xs with
    | none => some x
    | some m => some (max x m)

/-- Models dec27_code.py lines 313-320: the hypoxia bands applied to the
minimum of the whole-period deep-oxygen series. -/
def o2Band (minO2 : ℚ) : String :=
  if minO2 < 60 then "ALERT: Hypoxic events detected"
  else if minO2 < 120 then "CAUTION: Oxygen stress periods"
  else "OXYGEN: Healthy levels throughout"

/-- Hypoxia check over the deep-oxygen series (dec27_code.py lines 307-320);
an empty series has no minimum and no band. -/
def o2Report (series : List ℚ) : Option String :=
  (seriesMin series).map o2Band

/-! ## Depth integration (dec27_code.py 88-103, bio_3d.py 51-54) -/

/-- Trapezoidal rule over sampled (depth, value) points; models
`DataArray.integrate(coord='depth')`. -/
def trapz : List (ℚ × ℚ) → ℚ
  | (d1, v1) :: (d2, v2) :: rest =>
    (d2 - d1) * (v1 + v2) / 2 + trapz ((d2, v2) :: rest)
  | _ => 0

/-- Models `.sel(depth=slice(0, 100))` on the ascending CMEMS depth axis:
keep the sampled levels with depth between 0 and 100 m. -/
def photicRestrict (profile : List (ℚ × ℚ)) : List (ℚ × ℚ) :=
  profile.filter fun p => decide (0 ≤ p.1 ∧ p.1 ≤ 100)

/-- Models dec27_code.py lines 88 and 100: restrict the profile to 0-100 m,
then integrate over depth with the trapezoidal rule. -/
def integratedNPP (profile : List (ℚ × ℚ)) : ℚ :=
  trapz (photicRestrict profile)

/-- Models bio_3d.py line 54: restrict the profile to 0-100 m, then take a
plain sum of the sampled values over the depth dimension. -/
def bio3dNppIntegrated (profile : List (ℚ × ℚ)) : ℚ :=
  ((photicRestrict profile).map Prod.snd).sum

/-! ## Zone/variable availability (dec27_code.py 57-75 and report, processing.py 130-150) -/

/-- The diagnostic printed by `extract_and_process` when a zone subset is
all-NaN: it names the variable label, repeats the zone's current lat/lon
bounds, and suggests adjusting them (dec27_code.py lines 65-67). -/
structure BoundsDiag where
  label : String
  message : String
  latBounds : ℚ × ℚ
  lonBounds : ℚ × ℚ
  suggestion : String
deriving DecidableEq, Repr

/-- Result of loading and validating one zone/variable combination:
either the subset, or unavailability with its diagnostic (the Python
function returns `(None, None)` after printing the diagnostic). -/
inductive ExtractResult where
  | unavailable (diag : BoundsDiag)
  | ok (subset : List (List (Option ℚ)))
deriving DecidableEq, Repr

/-- Ratnagiri latitude bounds `slice(16.5, 17.5)` of dec27_code.py line 9. -/
def ratnagiriLat : ℚ × ℚ := (33 / 2, 35 / 2)

/-- Ratnagiri longitude bounds `slice(72.0, 73.5)` of dec27_code.py line 10. -/
def ratnagiriLon : ℚ × ℚ := (72, 147 / 2)

/-- Number of non-missing cells in a sample slice; models
`int((~sample.isnull()).sum())` at dec27_code.py line 62. -/
def validCells (sample : List (Option ℚ)) : Nat :=
  (sample.filter Option.isSome).length

/-- Models dec27_code.py lines 57-71: after the spatial subset (a list of
time slices, each a list of cells), take time slice 0 as the representative
sample; when it has zero valid cells, emit the all-land diagnostic naming
the label and the current bounds and return unavailability; otherwise
return the subset. -/
def extract_and_process (label : String) (latB lonB : ℚ × ℚ)
    (subset : List (List (Option ℚ))) : ExtractResult :=
  if validCells (subset.headD []) = 0 then
    .unavailable
      ⟨label, "Zone contains only NaN (likely all land)", latB, lonB,
       "Try adjusting lat lon bounds"⟩
  else .ok subset

/-- One section of the final report: a metric whose extraction failed is
rendered as the no-data text (its `if ... is not None` guard fails), never
by evaluating its numeric renderer. -/
def metricSection (r : ExtractResult)
    (render : List (List (Option ℚ)) → String) : String :=
  match r with
  | .ok subset => render subset
  | .unavailable _ => "No data available"

/-- The report of dec27_code.py's step 5: three sections, each produced
independently from its own extraction result. -/
def fullReport (npp no3 o2 : ExtractResult)
    (renderNpp renderNo3 renderO2 : List (List (Option ℚ)) → String) :
    List String :=
  [metricSection npp renderNpp, metricSection no3 renderNo3,
   metricSection o2 renderO2]

/-- Models processing.py lines 134-150: the peak of a zone's weekly series
(`data.max()`, skipping missing values) and the status printed for it; a
series with no valid sample has a null peak and reports the no-data status. -/
def peakStatus (series : List (Option ℚ)) : String :=
  match seriesMax (series.filterMap id) with
  | none => "NO DATA (Check cloud cover or file selection)"
  | some p =>
    if p < 1 then "LOW PRODUCTIVITY (Potential Fisheries Risk)"
    else if p > 5 then "VERY HIGH (Potential Algal Bloom Risk)"
    else "HEALTHY/NORMAL"

/-! ## Forecast model (output.py 74-149) -/

/-- First day of the bloom window: Oct 1 2025 as day-of-year. -/
def BLOOM_START : Nat := 274

/-- Last day of the bloom window: Nov 30 2025 as day-of-year. -/
def BLOOM_END : Nat := 334

/-- Models `ts.sel(time=slice('2025-10-01', '2025-11-30'))` on the weekly
zone series, represented as (day-of-year, value) pairs. -/
def bloomWindowSel (ts : List (Nat × ℚ)) : List (Nat × ℚ) :=
  ts.filter fun p => decide (BLOOM_START ≤ p.1 ∧ p.1 ≤ BLOOM_END)

/-- Arithmetic mean of a series, models `.mean()` of a 1-D series. -/
def listMean (xs : List ℚ) : ℚ := xs.sum / (xs.length : ℚ)

/-- Models output.py lines 81-86: the observed chlorophyll is the mean of
the bloom-window samples, or the numeric literal `0.0` when the window
holds no time step. -/
def avgObservedChl (ts : List (Nat × ℚ)) : ℚ :=
  let bloom := bloomWindowSel ts
  if 0 < bloom.length then listMean (bloom.map Prod.snd) else 0

/-- Models output.py line 90: PPI anomaly fraction against the baseline. -/
def ppiAnomalyOf (ts : List (Nat × ℚ)) : ℚ :=
  (avgObservedChl ts - BASELINE_CHL) / BASELINE_CHL

/-- The status printed for a zone, from its PPI anomaly in percent. -/
def zoneStatus (ts : List (Nat × ℚ)) : String :=
  ppiStatus (ppiAnomalyOf ts * 100)

/-- The yield forecast printed for a zone. -/
def zoneForecast (ts : List (Nat × ℚ)) : ℚ :=
  yieldGapPercent (ppiAnomalyOf ts)

/-! ## Theorems -/

/-- The two sequential status overwrites of output.py amount to one
three-band classification evaluated most-severe first. -/
theorem ppiStatus_eq_bands (a : ℚ) :
    ppiStatus a =
      if a < -50 then "CRITICAL"
      else if a < -20 then "STRESSED"
      else "STABLE" := by
  by_cases h1 : a < -50 <;> by_cases h2 : a < -20 <;>
    simp [ppiStatus, h1, h2]

/-- `seriesMin` returns an element of the series that bounds it below:
it is the series minimum. -/
theorem seriesMin_isMin :
    ∀ (xs : List ℚ) (m : ℚ), seriesMin xs = some m →
      m ∈ xs ∧ ∀ x ∈ xs, m ≤ x := by
  intro xs
  induction xs with
  | nil => intro m h; simp [seriesMin] at h
  | cons x xs ih =>
    intro m h
    cases hx : seriesMin xs with
    | none =>
      have hxs : xs = [] := by
        cases xs with
        | nil => rfl
        | cons y ys =>
          exfalso
          revert hx
          simp only [seriesMin]
          cases seriesMin ys <;> simp
      subst hxs
      simp only [seriesMin] at h
      obtain rfl : x = m := by simpa using h
      simp
    | some mx =>
      simp only [seriesMin, hx, Option.some.injEq] at h
      obtain ⟨hmem, hlb⟩ := ih mx hx
      subst h
      constructor
      · rcases le_total x mx with hle | hle
        · rw [min_eq_left hle]; exact List.mem_cons_self x xs
        · rw [min_eq_right hle]; exact List.mem_cons_of_mem x hmem
      · intro y hy
        rcases List.mem_cons.mp hy with rfl | hy'
        · exact min_le_left _ _
        · exact le_trans (min_le_right _ _) (hlb y hy')

/-- On a profile entirely inside the photic interval the depth restriction
keeps every sampled level. -/
theorem photicRestrict_of_bounds (ds : List ℚ) (v : ℚ)
    (hb : ∀ d ∈ ds, 0 ≤ d ∧ d ≤ 100) :
    photicRestrict (ds.map fun d => (d, v)) = ds.map fun d => (d, v) := by
  rw [photicRestrict, List.filter_eq_self]
  intro p hp
  rw [List.mem_map] at hp
  obtain ⟨d, hd, rfl⟩ := hp
  exact decide_eq_true (hb d hd)

/-- The trapezoidal rule over a uniform profile telescopes to the value
times the span between the first and last sampled levels. -/
theorem trapz_uniform (v : ℚ) :
    ∀ (rest : List ℚ) (d : ℚ),
      trapz ((d :: rest).map fun x => (x, v)) =
        v * ((d :: rest).getLastD 0 - d) := by
  intro rest
  induction rest with
  | nil => intro d; simp [trapz]
  | cons d2 r ih =>
    intro d
    simp only [List.map_cons] at ih ⊢
    rw [trapz, ih d2]
    simp only [List.getLastD_cons]
    ring

/-- C1: on a run whose resolved file list is empty (here: the glob matched
one entry that is not a regular file), the pipeline terminates before
assembly with the descriptive error messages - but via Python's `exit()`
with no argument, so the process exit status is 0, not nonzero as the
claim requires. -/
theorem emptyFileList_exits_before_assembly_with_status_zero :
    runPipeline [(['f', 'o', 'o'], false)] =
      RunPhase.earlyExit 0
        ["Error: No .nc files found matching the pattern",
         "Tip: Check your path and ensure files end in .nc"] := by
  rfl

/-- C2 counterexample: the filename `20251399.nc` matches the `YYYYDDD`
pattern (year 2025, day-of-year 139, a real date inside the supported
year), yet the run recovers no timestamp from it: the `YYYYMMDD` digit
pattern matches first, `to_datetime` raises on month 13, and the exception
handler skips the file without ever attempting the `YYYYDDD` pattern and
without the could-not-parse warning. -/
theorem julian_filename_shadowed_by_invalid_mmdd :
    searchJulian ['2', '0', '2', '5', '1', '3', '9', '9', '.', 'n', 'c'] = some 139
    ∧ (1 ≤ 139 ∧ 139 ≤ 365)
    ∧ fileOutcome ['2', '0', '2', '5', '1', '3', '9', '9', '.', 'n', 'c'] =
        FileOutcome.errorSkip := by
  refine ⟨by decide, by decide, by decide⟩

/-- C2 amended: date recovery attempts the `YYYYMMDD` digit pattern first
and attempts `YYYYDDD` only when that digit pattern is absent.  Whenever
the attempted pattern encodes a valid date of 2025, the recovered timestamp
is exactly that calendar date (as day-of-year).  A filename whose matched
digits encode an invalid date is skipped through the exception path (no
fallback), a filename matching neither pattern is skipped with the warning,
and in every case processing continues file by file: the timestamps
collected from a concatenation of filename lists are the concatenation of
the timestamps collected from each part, so one bad filename never aborts
the run. -/
theorem dateRecovery_priority_exactness_and_continuation :
    (∀ name m d, searchMMDD name = some (m, d) → validMD m d = true →
        fileOutcome name = FileOutcome.parsed (ordinalDay2025 m d))
    ∧ (∀ name m d, searchMMDD name = some (m, d) → validMD m d = false →
        fileOutcome name = FileOutcome.errorSkip)
    ∧ (∀ name ddd, searchMMDD name = none → searchJulian name = some ddd →
        1 ≤ ddd → ddd ≤ 365 → fileOutcome name = FileOutcome.parsed ddd)
    ∧ (∀ name ddd, searchMMDD name = none → searchJulian name = some ddd →
        ¬(1 ≤ ddd ∧ ddd ≤ 365) → fileOutcome name = FileOutcome.errorSkip)
    ∧ (∀ name, searchMMDD name = none → searchJulian name = none →
        fileOutcome name = FileOutcome.warnedSkip)
    ∧ (∀ xs ys, parsedTimes (xs ++ ys) = parsedTimes xs ++ parsedTimes ys) := by
  refine ⟨?_, ?_, ?_, ?_, ?_, ?_⟩
  · intro name m d h1 h2
    simp [fileOutcome, h1, h2]
  · intro name m d h1 h2
    simp [fileOutcome, h1, h2]
  · intro name ddd h1 h2 h3 h4
    simp [fileOutcome, h1, h2, h3, h4]
  · intro name ddd h1 h2 h3
    simp [fileOutcome, h1, h2, h3]
  · intro name h1 h2
    simp [fileOutcome, h1, h2]
  · intro xs ys
    simp [parsedTimes]

/-- C2 witness: the amended theorem applied to three concrete filenames,
`20250919` (valid month/day, Sep 19 = day 262), `A2025100` (no month/day
digit run, Julian day 100) and `a.nc` (no date at all). -/
theorem dateRecovery_witness :
    fileOutcome ['2', '0', '2', '5', '0', '9', '1', '9'] =
      FileOutcome.parsed (ordinalDay2025 9 19)
    ∧ fileOutcome ['A', '2', '0', '2', '5', '1', '0', '0'] =
        FileOutcome.parsed 100
    ∧ fileOutcome ['a', '.', 'n', 'c'] = FileOutcome.warnedSkip :=
  ⟨dateRecovery_priority_exactness_and_continuation.1
      ['2', '0', '2', '5', '0', '9', '1', '9'] 9 19 (by decide) (by decide),
   dateRecovery_priority_exactness_and_continuation.2.2.1
      ['A', '2', '0', '2', '5', '1', '0', '0'] 100 (by decide) (by decide)
      (by decide) (by decide),
   dateRecovery_priority_exactness_and_continuation.2.2.2.2.1
      ['a', '.', 'n', 'c'] (by decide) (by decide)⟩

/-- C3 counterexample: the Mumbai zone bounds `slice(19.5, 18.5)` of
processing.py, applied to an ascending latitude axis holding the points
18.5, 19.0, 19.5 - every one of them inside the zone - silently select
nothing, while the same bounds on the reversed (descending) axis select
all three points.  So a zone whose bounds are reversed relative to the
grid orientation does silently yield an empty selection. -/
theorem reversed_bounds_silently_empty :
    selSlice [(37 : ℚ) / 2, 19, 39 / 2] (39 / 2) (37 / 2) = some []
    ∧ selSlice [(39 : ℚ) / 2, 19, 37 / 2] (39 / 2) (37 / 2) =
        some [(39 : ℚ) / 2, 19, 37 / 2] := by
  constructor
  · norm_num [selSlice, monoIncr, monoDecr, List.filter]
  · norm_num [selSlice, monoIncr, monoDecr, List.filter]

/-- C3 amended: label-slice zone selection follows the grid's coordinate
order.  When the bound order matches the orientation, the selection keeps
exactly the coordinates inside the bounds, so it is never empty while some
coordinate lies within; when the bounds are reversed relative to the
orientation (descending-ordered bounds on an ascending axis or the
converse), the selection is empty, silently (no error is raised). -/
theorem sliceSelection_orientation :
    (∀ coords a b, monoIncr coords = true →
        selSlice coords a b =
          some (coords.filter fun c => decide (a ≤ c ∧ c ≤ b)))
    ∧ (∀ coords a b c, monoIncr coords = true → c ∈ coords → a ≤ c → c ≤ b →
        selSlice coords a b =
          some (coords.filter fun x => decide (a ≤ x ∧ x ≤ b))
        ∧ c ∈ coords.filter fun x => decide (a ≤ x ∧ x ≤ b))
    ∧ (∀ coords a b, monoIncr coords = true → b < a →
        selSlice coords a b = some [])
    ∧ (∀ coords a b c, monoIncr coords = false → monoDecr coords = true →
        c ∈ coords → b ≤ c → c ≤ a →
        selSlice coords a b =
          some (coords.filter fun x => decide (b ≤ x ∧ x ≤ a))
        ∧ c ∈ coords.filter fun x => decide (b ≤ x ∧ x ≤ a))
    ∧ (∀ coords a b, monoIncr coords = false → monoDecr coords = true →
        a < b → selSlice coords a b = some []) := by
  refine ⟨?_, ?_, ?_, ?_, ?_⟩
  · intro coords a b h
    simp [selSlice, h]
  · intro coords a b c h hc h1 h2
    refine ⟨by simp [selSlice, h], ?_⟩
    simp [List.mem_filter, hc, h1, h2]
  · intro coords a b h hba
    have hsel : selSlice coords a b =
        some (coords.filter fun c => decide (a ≤ c ∧ c ≤ b)) := by
      simp [selSlice, h]
    rw [hsel, Option.some.injEq, List.filter_eq_nil_iff]
    intro c _
    simp only [decide_eq_true_eq, not_and]
    intro h1 h2
    exact absurd (le_trans h1 h2) (not_le.mpr hba)
  · intro coords a b c h1 h2 hc hb ha
    refine ⟨by simp [selSlice, h1, h2], ?_⟩
    simp [List.mem_filter, hc, hb, ha]
  · intro coords a b h1 h2 hab
    have hsel : selSlice coords a b =
        some (coords.filter fun c => decide (b ≤ c ∧ c ≤ a)) := by
      simp [selSlice, h1, h2]
    rw [hsel, Option.some.injEq, List.filter_eq_nil_iff]
    intro c _
    simp only [decide_eq_true_eq, not_and]
    intro hb ha
    exact absurd (le_trans hb ha) (not_le.mpr hab)

/-- C3 witness: the amended theorem at a concrete ascending axis - matched
bound order selects the in-bounds coordinates, reversed bound order selects
nothing. -/
theorem sliceSelection_witness :
    selSlice [(1 : ℚ), 2, 3] 1 2 =
      some (([(1 : ℚ), 2, 3]).filter fun c => decide ((1 : ℚ) ≤ c ∧ c ≤ 2))
    ∧ selSlice [(1 : ℚ), 2, 3] 5 0 = some [] :=
  ⟨sliceSelection_orientation.1 [(1 : ℚ), 2, 3] 1 2 (by decide),
   sliceSelection_orientation.2.2.1 [(1 : ℚ), 2, 3] 5 0 (by decide)
     (by norm_num)⟩

/-- C4 counterexample: two files encoding the same date (`a20250101.nc`
and `b20250101.nc`) both parse to day 1, so the assembled, time-sorted
index is `[1, 1]` - sorted, but not strictly increasing - for this
perfectly ordinary input order. -/
theorem duplicate_dates_break_strictness :
    assembledTimeIndex
        [['a', '2', '0', '2', '5', '0', '1', '0', '1', '.', 'n', 'c'],
         ['b', '2', '0', '2', '5', '0', '1', '0', '1', '.', 'n', 'c']] = [1, 1]
    ∧ ¬ List.Sorted (· < ·)
        (assembledTimeIndex
          [['a', '2', '0', '2', '5', '0', '1', '0', '1', '.', 'n', 'c'],
           ['b', '2', '0', '2', '5', '0', '1', '0', '1', '.', 'n', 'c']]) := by
  refine ⟨by decide, by decide⟩

/-- C4 amended: after concatenation and `sortby('time')` the assembled time
index is always sorted non-decreasingly, it is the same list for every
input file order (so later stages, which only derive new series, see one
canonical chronological index), and it is strictly increasing exactly when
the recovered per-file timestamps are pairwise distinct - two files
encoding the same date make it non-strict. -/
theorem assembledIndex_sorted_canonical :
    (∀ times : List Nat, List.Sorted (· ≤ ·) (sortTimes times))
    ∧ (∀ times : List Nat, times.Nodup → List.Sorted (· < ·) (sortTimes times))
    ∧ (∀ t t' : List Nat, t.Perm t' → sortTimes t = sortTimes t') := by
  refine ⟨?_, ?_, ?_⟩
  · intro times
    exact List.sorted_insertionSort (· ≤ ·) times
  · intro times h
    refine List.Sorted.lt_of_le (List.sorted_insertionSort (· ≤ ·) times) ?_
    exact ((List.perm_insertionSort (· ≤ ·) times).nodup_iff).mpr h
  · intro t t' hp
    refine List.eq_of_perm_of_sorted ?_
      (List.sorted_insertionSort (· ≤ ·) t)
      (List.sorted_insertionSort (· ≤ ·) t')
    exact ((List.perm_insertionSort (· ≤ ·) t).trans hp).trans
      (List.perm_insertionSort (· ≤ ·) t').symm

/-- C4 witness: the amended theorem at concrete inputs - distinct
timestamps sort strictly, and two input orders of the same files produce
the identical index. -/
theorem assembledIndex_witness :
    List.Sorted (· < ·) (sortTimes [3, 1, 2])
    ∧ sortTimes [3, 1] = sortTimes [1, 3] :=
  ⟨assembledIndex_sorted_canonical.2.1 [3, 1, 2] (by decide),
   assembledIndex_sorted_canonical.2.2 [3, 1] [1, 3] (by decide)⟩

/-- C5: the PPI status classification behaves as ordered threshold bands
with the most severe band winning: an anomaly below -50 is CRITICAL (never
STRESSED), between -50 and -20 it is STRESSED, otherwise STABLE; a bloom
anomaly of +25 percent classifies STRONG BLOOM and one of -60 percent
classifies BLOOM FAILURE (and, as a PPI anomaly, CRITICAL). -/
theorem thresholdBands_most_severe_wins :
    (∀ a : ℚ, a < -50 → ppiStatus a = "CRITICAL")
    ∧ (∀ a : ℚ, -50 ≤ a → a < -20 → ppiStatus a = "STRESSED")
    ∧ (∀ a : ℚ, -20 ≤ a → ppiStatus a = "STABLE")
    ∧ bloomStatusOf 25 = "STRONG BLOOM"
    ∧ bloomStatusOf (-60) = "BLOOM FAILURE"
    ∧ ppiStatus (-60) = "CRITICAL" := by
  refine ⟨?_, ?_, ?_, ?_, ?_, ?_⟩
  · intro a h
    rw [ppiStatus_eq_bands, if_pos h]
  · intro a h1 h2
    rw [ppiStatus_eq_bands, if_neg (not_lt.mpr h1), if_pos h2]
  · intro a h
    rw [ppiStatus_eq_bands, if_neg (not_lt.mpr (le_trans (by norm_num) h)),
      if_neg (not_lt.mpr h)]
  · norm_num [bloomStatusOf]
  · norm_num [bloomStatusOf]
  · rw [ppiStatus_eq_bands]
    norm_num

/-- C5 witness: the band theorem applied at the concrete anomalies -60
(CRITICAL, not STRESSED), -30 (STRESSED) and 0 (STABLE). -/
theorem thresholdBands_witness :
    ppiStatus (-60) = "CRITICAL"
    ∧ ppiStatus (-30) = "STRESSED"
    ∧ ppiStatus 0 = "STABLE" :=
  ⟨thresholdBands_most_severe_wins.1 (-60) (by norm_num),
   thresholdBands_most_severe_wins.2.1 (-30) (by norm_num) (by norm_num),
   thresholdBands_most_severe_wins.2.2.1 0 (by norm_num)⟩

/-- C6: the hypoxia check takes the minimum of the deep-oxygen series over
the whole period (the returned value is a member of the series and a lower
bound of it) and classifies it against the fixed bands: below 60 the
hypoxic alert, from 60 below 120 the caution band, from 120 healthy; series
with minima 45, 80 and 200 classify alert, caution and healthy. -/
theorem hypoxia_bands_on_series_minimum :
    (∀ (series : List ℚ) (m : ℚ), seriesMin series = some m →
        m ∈ series ∧ ∀ x ∈ series, m ≤ x)
    ∧ (∀ (series : List ℚ) (m : ℚ), seriesMin series = some m → m < 60 →
        o2Report series = some "ALERT: Hypoxic events detected")
    ∧ (∀ (series : List ℚ) (m : ℚ), seriesMin series = some m →
        60 ≤ m → m < 120 →
        o2Report series = some "CAUTION: Oxygen stress periods")
    ∧ (∀ (series : List ℚ) (m : ℚ), seriesMin series = some m → 120 ≤ m →
        o2Report series = some "OXYGEN: Healthy levels throughout")
    ∧ o2Report [80, 45, 100] = some "ALERT: Hypoxic events detected"
    ∧ o2Report [90, 80, 130] = some "CAUTION: Oxygen stress periods"
    ∧ o2Report [200, 250, 220] = some "OXYGEN: Healthy levels throughout" := by
  refine ⟨seriesMin_isMin, ?_, ?_, ?_, ?_, ?_, ?_⟩
  · intro series m h hm
    rw [o2Report, h, Option.map_some', o2Band, if_pos hm]
  · intro series m h hm1 hm2
    rw [o2Report, h, Option.map_some', o2Band, if_neg (not_lt.mpr hm1),
      if_pos hm2]
  · intro series m h hm
    rw [o2Report, h, Option.map_some', o2Band,
      if_neg (not_lt.mpr (le_trans (by norm_num) hm)),
      if_neg (not_lt.mpr hm)]
  · norm_num [o2Report, seriesMin, o2Band, min_def]
  · norm_num [o2Report, seriesMin, o2Band, min_def]
  · norm_num [o2Report, seriesMin, o2Band, min_def]

/-- C6 witness: the band theorem applied to concrete series with minima
45, 80 and 200. -/
theorem hypoxia_witness :
    o2Report [45] = some "ALERT: Hypoxic events detected"
    ∧ o2Report [80] = some "CAUTION: Oxygen stress periods"
    ∧ o2Report [200] = some "OXYGEN: Healthy levels throughout" :=
  ⟨hypoxia_bands_on_series_minimum.2.1 [45] 45 rfl (by norm_num),
   hypoxia_bands_on_series_minimum.2.2.1 [80] 80 rfl (by norm_num)
     (by norm_num),
   hypoxia_bands_on_series_minimum.2.2.2.1 [200] 200 rfl (by norm_num)⟩

/-- C7 counterexample: on the uniform profile of value 2 sampled at depths
0, 50 and 100 m, bio_3d.py's depth-integrated production
(`.sel(depth=slice(0, 100)).sum(dim='depth')`) yields 6, the plain sum of
the three samples, not the analytic integral 2 x 100 = 200 - it is a sum,
not a trapezoidal integration.  (dec27_code.py's trapezoidal version does
yield 200 on the same profile.) -/
theorem bio3d_sum_is_not_the_integral :
    bio3dNppIntegrated [((0 : ℚ), 2), (50, 2), (100, 2)] = 6
    ∧ integratedNPP [((0 : ℚ), 2), (50, 2), (100, 2)] = 200
    ∧ (6 : ℚ) ≠ 2 * 100 := by
  refine ⟨?_, ?_, by norm_num⟩
  · norm_num [bio3dNppIntegrated, photicRestrict, List.filter]
  · norm_num [integratedNPP, photicRestrict, List.filter, trapz]

/-- C7 amended: dec27_code.py restricts the profile to the 0-100 m interval
and integrates with the trapezoidal rule, so a uniform profile of value v
whose sampled levels start at 0 and end at 100 integrates to exactly
v x 100; bio_3d.py instead sums the sampled values (its own comment calls
it a simple sum proxy), yielding v times the number of sampled levels, not
the analytic integral. -/
theorem depthIntegration_uniform :
    (∀ (d0 : ℚ) (rest : List ℚ) (v : ℚ),
        (∀ d ∈ d0 :: rest, 0 ≤ d ∧ d ≤ 100) → d0 = 0 →
        (d0 :: rest).getLastD 0 = 100 →
        integratedNPP ((d0 :: rest).map fun d => (d, v)) = v * 100)
    ∧ (∀ (ds : List ℚ) (v : ℚ), (∀ d ∈ ds, 0 ≤ d ∧ d ≤ 100) →
        bio3dNppIntegrated (ds.map fun d => (d, v)) = v * (ds.length : ℚ)) := by
  constructor
  · intro d0 rest v hb h0 hlast
    rw [integratedNPP, photicRestrict_of_bounds _ _ hb, trapz_uniform, hlast,
      h0]
    ring
  · intro ds v hb
    rw [bio3dNppIntegrated, photicRestrict_of_bounds _ _ hb, List.map_map]
    have hmap : (Prod.snd ∘ fun d => ((d, v) : ℚ × ℚ)) = fun _ => v := rfl
    rw [hmap, List.map_const', List.sum_replicate, nsmul_eq_mul, mul_comm]

/-- C7 witness: the amended theorem on the uniform profile of value 3
sampled at 0, 40 and 100 m - the trapezoidal version gives 3 x 100, the
sum version 3 x 3. -/
theorem depthIntegration_witness :
    integratedNPP (((0 : ℚ) :: [40, 100]).map fun d => (d, 3)) = 3 * 100
    ∧ bio3dNppIntegrated ([(0 : ℚ), 40, 100].map fun d => (d, 3)) =
        3 * (([(0 : ℚ), 40, 100].length : ℚ)) :=
  ⟨depthIntegration_uniform.1 0 [40, 100] 3
      (by intro d hd; fin_cases hd <;> norm_num) rfl (by norm_num),
   depthIntegration_uniform.2 [0, 40, 100] 3
      (by intro d hd; fin_cases hd <;> norm_num)⟩

/-- C8: a zone/variable combination whose subset is entirely missing in the
representative time slice is reported unavailable, with a diagnostic
carrying the variable label, the zone's lat/lon bounds and the suggestion
to adjust them; its report section is the no-data text (never a numeric
rendering, so never a numeric zero), the remaining report sections are
unaffected by that unavailability, and the all-missing weekly series of
processing.py likewise reports NO DATA rather than a number. -/
theorem allMissing_zone_reports_unavailable :
    (∀ (label : String) (latB lonB : ℚ × ℚ)
        (subset : List (List (Option ℚ))),
        (∀ c ∈ subset.headD [], c = (none : Option ℚ)) →
        extract_and_process label latB lonB subset =
          ExtractResult.unavailable
            ⟨label, "Zone contains only NaN (likely all land)", latB, lonB,
             "Try adjusting lat lon bounds"⟩)
    ∧ (∀ (diag : BoundsDiag) (render : List (List (Option ℚ)) → String),
        metricSection (ExtractResult.unavailable diag) render =
          "No data available")
    ∧ (∀ (npp npp2 no3 o2 : ExtractResult)
        (rN rU rO : List (List (Option ℚ)) → String),
        (fullReport npp no3 o2 rN rU rO).tail =
          (fullReport npp2 no3 o2 rN rU rO).tail)
    ∧ (∀ series : List (Option ℚ), (∀ x ∈ series, x = none) →
        peakStatus series =
          "NO DATA (Check cloud cover or file selection)") := by
  refine ⟨?_, ?_, ?_, ?_⟩
  · intro label latB lonB subset h
    have hf : (subset.headD []).filter Option.isSome = [] := by
      rw [List.filter_eq_nil_iff]
      intro c hc
      rw [h c hc]
      simp
    have hv : validCells (subset.headD []) = 0 := by
      rw [validCells, hf]
      rfl
    simp only [extract_and_process]
    rw [if_pos hv]
  · intro diag render
    rfl
  · intro npp npp2 no3 o2 rN rU rO
    rfl
  · intro series h
    have hnil : series.filterMap id = [] := by
      rw [List.filterMap_eq_nil_iff]
      intro a ha
      rw [h a ha]
      rfl
    rw [peakStatus, hnil]
    rfl

/-- C8 witness: the availability theorem at a concrete subset whose time
slice 0 is all missing (for the Ratnagiri bounds and the NPP label) and at
a concrete all-missing weekly series. -/
theorem allMissing_witness :
    extract_and_process "NPP" ratnagiriLat ratnagiriLon
        [[none, none], [some 3]] =
      ExtractResult.unavailable
        ⟨"NPP", "Zone contains only NaN (likely all land)", ratnagiriLat,
         ratnagiriLon, "Try adjusting lat lon bounds"⟩
    ∧ peakStatus [none, none] =
        "NO DATA (Check cloud cover or file selection)" :=
  ⟨allMissing_zone_reports_unavailable.1 "NPP" ratnagiriLat ratnagiriLon
      [[none, none], [some 3]] (by intro c hc; fin_cases hc <;> rfl),
   allMissing_zone_reports_unavailable.2.2.2 [none, none]
      (by intro x hx; fin_cases hx <;> rfl)⟩

/-- C9: the yield-gap forecast is the PPI anomaly fraction times the
trophic sensitivity 0.8 times 100; the value is returned as is when that
product is non-positive and dampened by the factor 0.2 when the product is
positive (predicted growth). -/
theorem yieldGap_formula :
    TROPHIC_SENSITIVITY = 4 / 5
    ∧ (∀ a : ℚ, a * TROPHIC_SENSITIVITY * 100 ≤ 0 →
        yieldGapPercent a = a * TROPHIC_SENSITIVITY * 100)
    ∧ (∀ a : ℚ, 0 < a * TROPHIC_SENSITIVITY * 100 →
        yieldGapPercent a = a * TROPHIC_SENSITIVITY * 100 * (1 / 5)) := by
  refine ⟨rfl, ?_, ?_⟩
  · intro a h
    rw [yieldGapPercent, dampenForecast, if_neg (not_lt.mpr h)]
  · intro a h
    rw [yieldGapPercent, dampenForecast, if_pos h]

/-- C9 witness: the forecast formula at the anomaly fractions -1 (no
damping) and 1 (damped by 0.2). -/
theorem yieldGap_witness :
    yieldGapPercent (-1) = (-1) * TROPHIC_SENSITIVITY * 100
    ∧ yieldGapPercent 1 = 1 * TROPHIC_SENSITIVITY * 100 * (1 / 5) :=
  ⟨yieldGap_formula.2.1 (-1) (by norm_num [TROPHIC_SENSITIVITY]),
   yieldGap_formula.2.2 1 (by norm_num [TROPHIC_SENSITIVITY])⟩

/-- C10: whenever a zone's weekly chlorophyll series has no time step
inside the Oct 1 - Nov 30 bloom window, the observed chlorophyll is set to
the numeric value 0 (not marked missing), which forces a PPI anomaly of
exactly -100 percent, the status CRITICAL, and a forecast of exactly -80
percent rendered as a decline. -/
theorem emptyBloomWindow_zero_chl_critical :
    ∀ ts : List (Nat × ℚ), bloomWindowSel ts = [] →
      avgObservedChl ts = 0
      ∧ ppiAnomalyOf ts * 100 = -100
      ∧ zoneStatus ts = "CRITICAL"
      ∧ zoneForecast ts = -80
      ∧ forecastLabel (zoneForecast ts) = "Decline" := by
  intro ts h
  have h0 : avgObservedChl ts = 0 := by
    simp [avgObservedChl, h]
  have hppi : ppiAnomalyOf ts = -1 := by
    rw [ppiAnomalyOf, h0, BASELINE_CHL]
    norm_num
  have hfc : zoneForecast ts = -80 := by
    rw [zoneForecast, hppi]
    norm_num [yieldGapPercent, TROPHIC_SENSITIVITY, dampenForecast]
  refine ⟨h0, by rw [hppi]; norm_num, ?_, hfc, ?_⟩
  · rw [zoneStatus, hppi, show (-1 : ℚ) * 100 = -100 by norm_num,
      ppiStatus_eq_bands]
    norm_num
  · rw [hfc]
    norm_num [forecastLabel]

/-- C10 witness: a concrete series whose single sample (day 100) lies
outside the bloom window. -/
theorem emptyBloomWindow_witness :
    avgObservedChl [(100, (3 : ℚ))] = 0
    ∧ ppiAnomalyOf [(100, (3 : ℚ))] * 100 = -100
    ∧ zoneStatus [(100, (3 : ℚ))] = "CRITICAL"
    ∧ zoneForecast [(100, (3 : ℚ))] = -80
    ∧ forecastLabel (zoneForecast [(100, (3 : ℚ))]) = "Decline" :=
  emptyBloomWindow_zero_chl_critical [(100, 3)] (by rfl)

end Konkan
